import Mathlib

/-!
Shallow embedding of FarmScout's listing discovery and filtering pipeline
(src/app.py and src/services.py).

Modelling conventions:
* Python strings are `List Char`; a literal `"s".data` is the character list.
* `str.lower()` is modelled by mapping `Char.toLower` (ASCII case folding,
  which is what every URL/keyword in the source exercises).
* The regex character class `\d` is modelled as the ASCII digit test
  `Char.isDigit`, and `[a-z]` as the ASCII range test; `$` matches at the
  end of the string or just before one trailing newline, as in Python `re`.
* Serper responses are modelled as functions from query index to the list
  of accessible `organic` items; a transport error or a response without
  an `organic` key both yield no items, so both are modelled by `[]`.
-/

/-- Python `s.lower()` on a character list (ASCII case folding). -/
def pyLower (s : List Char) : List Char := s.map Char.toLower

/-- Does the pattern `p` occur at the very start of `s`? -/
def leadsWith : List Char → List Char → Bool
  | [], _ => true
  | _ :: _, [] => false
  | p :: ps, c :: cs => p == c && leadsWith ps cs

/-- Python's substring test `pat in s` (contiguous occurrence anywhere). -/
def hasSub (pat : List Char) : List Char → Bool
  | [] => leadsWith pat []
  | c :: cs => leadsWith pat (c :: cs) || hasSub pat cs

/-- Does some suffix of `s` (including `s` itself and `[]`) satisfy `p`?
Used to model `re.search`, which tries every start position. -/
def anyTail (p : List Char → Bool) : List Char → Bool
  | [] => p []
  | c :: cs => p (c :: cs) || anyTail p cs

/-- Python `re`'s `$` also matches just before a single trailing newline. -/
def stripNl (s : List Char) : List Char :=
  match s.reverse with
  | '\n' :: r => r.reverse
  | _ => s

/-- On a reversed string: an optional single `/` at the end of the original. -/
def dropOneSlash (r : List Char) : List Char :=
  match r with
  | '/' :: rest => rest
  | _ => r

/-- On a reversed string: one or more digits followed by `-`
(i.e. the original ends in `-<digits>`). -/
def digitsThenDash (r : List Char) : Bool :=
  let ds := r.takeWhile Char.isDigit
  !ds.isEmpty && ((r.drop ds.length).head? == some '-')

/-- `re.search(r'-\d+/?$', s)` (used by both classifiers as `has_id_end` /
`has_listing_id_at_end`). -/
def reIdEndOptSlash (s : List Char) : Bool :=
  digitsThenDash (dropOneSlash (stripNl s).reverse)

/-- `re.search(r'-\d+$', s)` (farmbuy.com special case in services.py). -/
def reDashDigitsEnd (s : List Char) : Bool :=
  digitsThenDash (stripNl s).reverse

/-- `re.search(r'-\d+/$', s)` (farmbuy.com special case in services.py). -/
def reDashDigitsSlashEnd (s : List Char) : Bool :=
  match (stripNl s).reverse with
  | '/' :: r => digitsThenDash r
  | _ => false

/-- Match `/\d+-` at the start of the list. -/
def atMidId : List Char → Bool
  | '/' :: rest =>
    let ds := rest.takeWhile Char.isDigit
    !ds.isEmpty && ((rest.drop ds.length).head? == some '-')
  | _ => false

/-- `re.search(r'/\d+-', s)` (`has_listing_id_in_path` in app.py). -/
def reMidId (s : List Char) : Bool := anyTail atMidId s

/-- ASCII `[a-z]`. -/
def isLowerAlpha (c : Char) : Bool := 'a' ≤ c && c ≤ 'z'

/-- Match `/\d{1,5}-[a-z]` at the start of the list.  Backtracking over
`\d{1,5}` succeeds exactly when the maximal digit run after `/` has length
1..5 and is followed by `-` and a lowercase letter. -/
def atStreetNum : List Char → Bool
  | '/' :: rest =>
    let ds := rest.takeWhile Char.isDigit
    decide (1 ≤ ds.length) && decide (ds.length ≤ 5) &&
      (match rest.drop ds.length with
       | '-' :: c :: _ => isLowerAlpha c
       | _ => false)
  | _ => false

/-- `re.search(r'/\d{1,5}-[a-z]', s)` (`has_street_number` in app.py). -/
def reStreetNum (s : List Char) : Bool := anyTail atStreetNum s

/-- Match `/\d+-[a-z]` at the start of the list. -/
def atAddressSlug : List Char → Bool
  | '/' :: rest =>
    let ds := rest.takeWhile Char.isDigit
    !ds.isEmpty &&
      (match rest.drop ds.length with
       | '-' :: c :: _ => isLowerAlpha c
       | _ => false)
  | _ => false

/-- `re.search(r'/\d+-[a-z]', s)` (`has_address_slug` in services.py). -/
def reAddressSlug (s : List Char) : Bool := anyTail atAddressSlug s

/-- Match `/\d{6,}` at the start of the list. -/
def atLongId : List Char → Bool
  | '/' :: rest => decide (6 ≤ (rest.takeWhile Char.isDigit).length)
  | _ => false

/-- `re.search(r'/\d{6,}', s)` (`has_id_path` in services.py). -/
def reLongId (s : List Char) : Bool := anyTail atLongId s

/-- Is the head of the list an ASCII digit? -/
def headIsDigit : List Char → Bool
  | c :: _ => c.isDigit
  | [] => false

/-- Match a literal followed by at least one digit, at the start of the list. -/
def atLitThenDigit (lit : List Char) (s : List Char) : Bool :=
  leadsWith lit s && headIsDigit (s.drop lit.length)

/-- `re.search(r'/property/\d+', s)` (`has_property_id` in app.py). -/
def rePropertyDigits (s : List Char) : Bool :=
  anyTail (atLitThenDigit ("/property/").data) s

/-- `re.search(r'/lot-\d+', s)` (`has_lot_number` in app.py). -/
def reLotDigits (s : List Char) : Bool :=
  anyTail (atLitThenDigit ("/lot-").data) s

/-- `blocklist_patterns` of `is_valid_listing_url` in src/app.py. -/
def appBlocklist : List (List Char) :=
  [("/region/").data, ("/town/").data, ("/label/").data, ("/agencies/").data,
   ("/agency/").data, ("/state/").data, ("/search").data, ("/browse/").data,
   ("/category/").data, ("/suburb/").data, ("-rural-property-search").data,
   ("-property-search").data, ("-real-estate").data, ("-for-sale").data,
   ("?page=").data, ("?ac=").data, ("page=").data, ("/sold/").data,
   ("/auctions/").data, ("/news/").data, ("/blog/").data, ("/guide/").data,
   ("/about/").data, ("/contact/").data, ("/team/").data]

/-- `blocklist` of `ListingService.is_valid_listing_url` in src/services.py. -/
def svcBlocklist : List (List Char) :=
  [("/label/").data, ("/search").data, ("/agencies/").data, ("/agency/").data,
   ("/town/").data, ("/region/").data, ("?ac=").data, ("page=").data,
   ("/sold/").data, ("/auctions/").data, ("/news/").data, ("/blog/").data,
   ("/guide/").data, ("/about/").data, ("/contact/").data, ("/team/").data,
   ("/under-offer/").data, ("realestate.com.au/buy/").data,
   ("domain.com.au/sale/").data]

/-- Body of src/app.py `is_valid_listing_url` after `url_lower = url.lower()`:
blocklist veto, then the five positive "digit rule" patterns. -/
def appValidCore (ul : List Char) : Bool :=
  if appBlocklist.any (fun b => hasSub b ul) then false
  else
    reIdEndOptSlash ul || reMidId ul || reStreetNum ul ||
      rePropertyDigits ul || reLotDigits ul

/-- src/app.py `is_valid_listing_url`. -/
def is_valid_listing_url_app (url : List Char) : Bool :=
  appValidCore (pyLower url)

/-- Body of src/services.py `ListingService.is_valid_listing_url` after
lowering: blocklist veto, farmbuy.com per-source override, then the generic
positive checks. -/
def svcValidCore (ul : List Char) : Bool :=
  if svcBlocklist.any (fun b => hasSub b ul) then false
  else if hasSub ("farmbuy.com").data ul then
    reDashDigitsEnd ul || reDashDigitsSlashEnd ul
  else
    reIdEndOptSlash ul || reLongId ul ||
      (hasSub ("/property-").data ul || hasSub ("/property/").data ul) ||
      reAddressSlug ul

/-- src/services.py `ListingService.is_valid_listing_url`. -/
def is_valid_listing_url_svc (url : List Char) : Bool :=
  svcValidCore (pyLower url)

/-- `EXCLUDED_TITLE_KEYWORDS` (identical lists in src/app.py and
src/services.py); the apostrophe of the third entry is written via its
code point. -/
def excludedTitleKeywords : List (List Char) :=
  [("market report").data, ("buyers guide").data,
   ("buyer").data ++ [Char.ofNat 39] ++ ("s guide").data,
   ("news article").data, ("blog post").data]

/-- src/app.py `is_valid_listing_title`. -/
def is_valid_listing_title (title : List Char) : Bool :=
  !(excludedTitleKeywords.any (fun k => hasSub k (pyLower title)))

/-- A Serper `organic` search-result item (src/app.py and src/services.py
access it through `dict.get`, so every key may be absent). -/
structure SearchItem where
  link : Option (List Char)
  title : Option (List Char)
  snippet : Option (List Char)
  imageUrl : Option (List Char)
  thumbnail : Option (List Char)
deriving DecidableEq, Repr

/-- `item.get('link', '')` — the URL used for dedup and classification. -/
def pyGetLink (it : SearchItem) : List Char := it.link.getD []

/-- `item.get('title', '')` — the title used by app.py's strict phase. -/
def pyGetTitleE (it : SearchItem) : List Char := it.title.getD []

/-- `item.get('snippet', '')` — the snippet fallback in services.py. -/
def pyGetSnippetE (it : SearchItem) : List Char := it.snippet.getD []

/-- Python `a or b` on two optional strings: the first operand is kept only
when it is truthy (present and non-empty). -/
def pyOr (a b : Option (List Char)) : Option (List Char) :=
  match a with
  | some s => if s.isEmpty then b else some s
  | none => b

/-- The `models.ListingItem` record (services.py) and the result dict of
app.py's `scrape_with_metadata` share this shape. -/
structure ListingItem where
  title : List Char
  url : List Char
  image : Option (List Char)
  scraped_content : List Char
deriving DecidableEq, Repr

/-! ### services.py `ListingService.search_listings`

The provider is abstracted as two functions from query index (four
site-scoped query templates built from `location_name`) to the accessible
`organic` items; a failed request or a missing `organic` key contributes no
items and is modelled by `[]`. -/

/-- One iteration of the accept loop shared by the strict and the fallback
phase of `search_listings`: skip items whose URL was already seen, keep an
item (and record its URL) only when the bouncer accepts it. -/
def svcStep (st : List SearchItem × List (List Char)) (item : SearchItem) :
    List SearchItem × List (List Char) :=
  let u := pyGetLink item
  if u ∈ st.2 then st
  else if is_valid_listing_url_svc u then (st.1 ++ [item], u :: st.2)
  else st

/-- Fold one phase of `search_listings` over its four queries. -/
def svcFoldQueries (resp : Nat → List SearchItem)
    (st : List SearchItem × List (List Char)) :
    List SearchItem × List (List Char) :=
  (List.range 4).foldl (fun st i => (resp i).foldl svcStep st) st

/-- Candidates and seen-URL set after the strict phase of `search_listings`. -/
def svcStrictPhase (strictResp : Nat → List SearchItem) :
    List SearchItem × List (List Char) :=
  svcFoldQueries strictResp ([], [])

/-- src/services.py `ListingService.search_listings`: strict phase, then —
only when it produced nothing and `location_name` is not a synthetic
"Region near" placeholder — a fallback phase over relaxed queries, with the
seen-URL set carried over. -/
def search_listings_svc (strictResp fallbackResp : Nat → List SearchItem)
    (location_name : List Char) : List SearchItem :=
  let st := svcStrictPhase strictResp
  if st.1.isEmpty then
    if hasSub ("Region near").data location_name then []
    else (svcFoldQueries fallbackResp st).1
  else st.1

/-! ### src/app.py `get_land_listings`, candidate-collection part

Three site-scoped queries; `location_name` only shapes the query strings
sent to the provider, which is abstracted by the response functions. -/

/-- app.py strict-phase acceptance: `is_valid_listing_title(title) and
is_valid_listing_url(item_url)`. -/
def appStrictKeep (it : SearchItem) : Bool :=
  is_valid_listing_title (pyGetTitleE it) && is_valid_listing_url_app (pyGetLink it)

/-- Candidates accepted by app.py's strict phase (no deduplication). -/
def appStrictCands (strictResp : Nat → List SearchItem) : List SearchItem :=
  (List.range 3).foldl
    (fun acc i =>
      (strictResp i).foldl
        (fun acc it => if appStrictKeep it then acc ++ [it] else acc) acc)
    []

/-- The reduced blocklist applied in app.py's fallback phase. -/
def appFallbackBlocklist : List (List Char) :=
  [("/agencies/").data, ("/agency/").data, ("/state/").data, ("/region/").data,
   ("-property-search").data, ("/search").data, ("?page=").data, ("?ac=").data]

/-- app.py fallback-phase rejection: blocklist-only, no digit rule. -/
def appFallbackBlocked (it : SearchItem) : Bool :=
  appFallbackBlocklist.any (fun b => hasSub b (pyLower (pyGetLink it)))

/-- Candidate collection of src/app.py `get_land_listings` (lines 327-372):
strict phase over three queries; if it accepted nothing, a fallback phase
taking the first 15 items of each relaxed query filtered only by the
reduced blocklist.  `location_name` is interpolated into the query strings
but never inspected otherwise. -/
def app_collect_candidates (_location_name : List Char)
    (strictResp fallbackResp : Nat → List SearchItem) : List SearchItem :=
  let cands := appStrictCands strictResp
  if cands.isEmpty then
    (List.range 3).foldl
      (fun acc i =>
        ((fallbackResp i).take 15).foldl
          (fun acc it => if appFallbackBlocked it then acc else acc ++ [it]) acc)
      cands
  else cands

/-! ### Scrape coordination -/

/-- `content = text if text else snippet`: Python keeps the fetched text
only when it is present and non-empty. -/
def pyTextOrSnippet (t : Option (List Char)) (snip : List Char) : List Char :=
  match t with
  | some s => if s.isEmpty then snip else s
  | none => snip

/-- The `ListingItem` built for one raw item in services.py
`get_listings_with_content` (title defaults to `'Unknown'`, image is
`imageUrl or thumbnail`, content is the fetched text or the snippet). -/
def svcMakeListing (item : SearchItem) (t : Option (List Char)) : ListingItem :=
  { title := item.title.getD ("Unknown").data
  , url := item.link.getD []
  , image := pyOr item.imageUrl item.thumbnail
  , scraped_content := pyTextOrSnippet t (pyGetSnippetE item) }

/-- src/services.py `ListingService.get_listings_with_content`, scrape part:
`asyncio.gather` returns the fetch results in task order as `texts`
(`none` models a failed fetch), and `zip(raw_items, scraped_texts)` merges
them positionally. -/
def get_listings_with_content_svc (raw : List SearchItem)
    (texts : List (Option (List Char))) : List ListingItem :=
  if raw.isEmpty then []
  else (raw.zip texts).map (fun p => svcMakeListing p.1 p.2)

/-- src/app.py `scrape_with_metadata`: fetch (`scrape_listing_page`,
modelled by `fetch`), fall back to the snippet, cap the content at 3000
characters. -/
def scrape_with_metadata_app (fetch : List Char → Option (List Char))
    (item : SearchItem) : ListingItem :=
  let url := item.link.getD ("#").data
  let snippet := item.snippet.getD ("No description available.").data
  { title := item.title.getD ("Untitled Property").data
  , url := url
  , image := pyOr item.imageUrl item.thumbnail
  , scraped_content := (pyTextOrSnippet (fetch url) snippet).take 3000 }

/-- Scraping part of src/app.py `get_land_listings`: results are collected
with `as_completed`, i.e. in an arbitrary completion order, modelled by an
arbitrary permutation `perm` of the candidate list. -/
def app_scrape_results (fetch : List Char → Option (List Char))
    (perm : List SearchItem) : List ListingItem :=
  perm.map (scrape_with_metadata_app fetch)

/-! ### Invariant and concrete fixtures used by the theorems below -/

/-- Invariant of the `search_listings` accept loop: accepted candidates have
pairwise-distinct URLs and every accepted URL is recorded in `seen_urls`. -/
def svcInv (st : List SearchItem × List (List Char)) : Prop :=
  (st.1.map pyGetLink).Nodup ∧ ∀ it ∈ st.1, pyGetLink it ∈ st.2

/-- Default item (all keys absent), used with `List.getD`. -/
def dSearchItem : SearchItem :=
  { link := none, title := none, snippet := none, imageUrl := none,
    thumbnail := none }

/-- Default listing, used with `List.getD`. -/
def dListingItem : ListingItem :=
  { title := [], url := [], image := none, scraped_content := [] }

/-- A URL accepted by services.py through the digit-free `/property/`
substring test, matching none of the five digit-rule shapes. -/
def c2Url : List Char := ("https://example.com/property/green-farm").data

/-- A search item with a URL both classifiers accept and no title. -/
def c3Item : SearchItem :=
  { link := some (("https://www.realestate.com.au/property-acreage-nsw-dubbo-700123456").data),
    title := none, snippet := none, imageUrl := none, thumbnail := none }

/-- A provider whose first strict query returns the same item twice. -/
def c3Strict : Nat → List SearchItem := fun i => if i = 0 then [c3Item, c3Item] else []

/-- A provider whose fallback queries return nothing. -/
def c3Fallback : Nat → List SearchItem := fun _ => []

/-- Candidate whose fetch succeeds in the C4 witness run. -/
def c4ItA : SearchItem :=
  { link := some (("https://a.com/12-main-street").data),
    title := some (("12 Main Street").data),
    snippet := some (("Snippet A").data), imageUrl := none, thumbnail := none }

/-- Candidate whose fetch fails in the C4 witness run. -/
def c4ItB : SearchItem :=
  { link := some (("https://a.com/old-homestead-991").data),
    title := some (("Old Homestead").data),
    snippet := some (("Snippet B").data), imageUrl := none, thumbnail := none }

/-- Gather results for `[c4ItA, c4ItB]`: the second fetch failed. -/
def c4Texts : List (Option (List Char)) :=
  [some (("Fetched page text").data), none]

/-- A fetcher that always fails. -/
def c4Fetch : List Char → Option (List Char) := fun _ => none

/-- A fallback result with a clean URL (no blocklist term) and no digit
pattern at all. -/
def c5Item : SearchItem :=
  { link := some (("https://example.com/green-pastures-estate").data),
    title := none, snippet := none, imageUrl := none, thumbnail := none }

/-- A fallback result with a clean URL and no digit pattern (C6 runs). -/
def c6Item : SearchItem :=
  { link := some (("https://example.com/small-acreage").data),
    title := none, snippet := none, imageUrl := none, thumbnail := none }

/-- An item with a listing-shaped URL and a title containing the excluded
phrase "market report". -/
def c7BadItem : SearchItem :=
  { link := some (("https://eldersrealestate.com.au/rural-dubbo-4567").data),
    title := some (("Dubbo Market Report 2024").data),
    snippet := none, imageUrl := none, thumbnail := none }

/-- An item with a listing-shaped URL and an ordinary title. -/
def c7GoodItem : SearchItem :=
  { link := some (("https://a.com/123-smith-road").data),
    title := some (("235 Clearview Road Dubbo").data),
    snippet := none, imageUrl := none, thumbnail := none }

/-- Raw items for the C10 witness. -/
def c10Raw : List SearchItem :=
  [{ link := some (("https://a.com/lot-7-river-road").data),
     title := some (("Lot 7 River Road").data),
     snippet := some (("A river block").data),
     imageUrl := some [], thumbnail := some (("thumb.jpg").data) },
   c4ItB]

/-- Gather results for the C10 witness: empty text, then a success. -/
def c10Texts : List (Option (List Char)) :=
  [some [], some (("Body text").data)]

/-! ### Helper lemmas -/

theorem char_toNat_ofNat (n : Nat) (h : n.isValidChar) :
    (Char.ofNat n).toNat = n := by
  unfold Char.ofNat
  rw [dif_pos h]
  rfl

theorem char_toLower_idem (c : Char) :
    (Char.toLower c).toLower = Char.toLower c := by
  unfold Char.toLower
  by_cases h : c.toNat ≥ 65 ∧ c.toNat ≤ 90
  · rw [if_pos h]
    have hv : (c.toNat + 32).isValidChar := Or.inl (by omega)
    have ht : (Char.ofNat (c.toNat + 32)).toNat = c.toNat + 32 :=
      char_toNat_ofNat _ hv
    rw [if_neg]
    rw [ht]
    omega
  · rw [if_neg h, if_neg h]

theorem pyLower_idem (s : List Char) : pyLower (pyLower s) = pyLower s := by
  induction s with
  | nil => rfl
  | cons c cs ih =>
    simp only [pyLower, List.map_cons] at *
    rw [char_toLower_idem]
    rw [show List.map Char.toLower (List.map Char.toLower cs) = List.map Char.toLower cs from ih]

/-! ### Claim theorems -/

/-- Claim C1: any URL whose lowercased form contains a member of the fixed
blocklist is rejected by `is_valid_listing_url` — in both implementations —
regardless of any positive digit-rule pattern (`u` is arbitrary, so in
particular it may match every positive pattern). -/
theorem blocklist_hard_veto (u b c : List Char)
    (hb : b ∈ appBlocklist) (hbu : hasSub b (pyLower u) = true)
    (hc : c ∈ svcBlocklist) (hcu : hasSub c (pyLower u) = true) :
    is_valid_listing_url_app u = false ∧ is_valid_listing_url_svc u = false := by
  constructor
  · have ha : appBlocklist.any (fun x => hasSub x (pyLower u)) = true :=
      List.any_eq_true.mpr ⟨b, hb, hbu⟩
    simp [is_valid_listing_url_app, appValidCore, ha]
  · have ha : svcBlocklist.any (fun x => hasSub x (pyLower u)) = true :=
      List.any_eq_true.mpr ⟨c, hc, hcu⟩
    simp [is_valid_listing_url_svc, svcValidCore, ha]

/-- Claim C1, witness: a URL containing `/region/` (and a trailing numeric
id, i.e. a positive pattern) is rejected by both classifiers. -/
theorem blocklist_hard_veto_witness :
    is_valid_listing_url_app (("https://farmbuy.com/nsw/region/dubbo-12345").data) = false ∧
    is_valid_listing_url_svc (("https://farmbuy.com/nsw/region/dubbo-12345").data) = false :=
  blocklist_hard_veto (("https://farmbuy.com/nsw/region/dubbo-12345").data)
    (("/region/").data) (("/region/").data)
    (by decide) (by decide) (by decide) (by decide)

/-- Claim C9: URL classification is case-insensitive — both classifiers give
the same verdict on `u` and on `u.lower()`, because they lowercase first and
ASCII lowering is idempotent. -/
theorem url_classifier_case_insensitive (u : List Char) :
    is_valid_listing_url_app (pyLower u) = is_valid_listing_url_app u ∧
    is_valid_listing_url_svc (pyLower u) = is_valid_listing_url_svc u := by
  constructor
  · unfold is_valid_listing_url_app
    rw [pyLower_idem]
  · unfold is_valid_listing_url_svc
    rw [pyLower_idem]

/-- Claim C2, counterexample: `services.py`'s `is_valid_listing_url` accepts
a URL that contains no blocklist substring of either implementation and
matches none of the five positive identifier shapes — the bare `/property/`
substring suffices, no digit required.  The claim as stated (default-reject
for both classifiers) is therefore false. -/
theorem svc_accepts_digitless_property_url :
    is_valid_listing_url_svc c2Url = true ∧
    reIdEndOptSlash (pyLower c2Url) = false ∧
    reMidId (pyLower c2Url) = false ∧
    reStreetNum (pyLower c2Url) = false ∧
    rePropertyDigits (pyLower c2Url) = false ∧
    reLotDigits (pyLower c2Url) = false ∧
    appBlocklist.all (fun b => !hasSub b (pyLower c2Url)) = true ∧
    svcBlocklist.all (fun b => !hasSub b (pyLower c2Url)) = true := by
  decide

/-- Claim C2, amended: default-reject holds for `app.py`'s
`is_valid_listing_url` — a URL matching none of the five identifier shapes
is rejected (regardless of the blocklist). -/
theorem app_default_reject (u : List Char)
    (h1 : reIdEndOptSlash (pyLower u) = false)
    (h2 : reMidId (pyLower u) = false)
    (h3 : reStreetNum (pyLower u) = false)
    (h4 : rePropertyDigits (pyLower u) = false)
    (h5 : reLotDigits (pyLower u) = false) :
    is_valid_listing_url_app u = false := by
  unfold is_valid_listing_url_app appValidCore
  split
  · rfl
  · rw [h1, h2, h3, h4, h5]
    rfl

/-- Claim C2, witness for the amended theorem. -/
theorem app_default_reject_witness :
    is_valid_listing_url_app (("https://example.com/about-us").data) = false :=
  app_default_reject (("https://example.com/about-us").data)
    (by decide) (by decide) (by decide) (by decide) (by decide)

theorem foldl_push_filter {α : Type} (p : α → Bool) (acc L : List α) :
    L.foldl (fun a x => if p x then a ++ [x] else a) acc = acc ++ L.filter p := by
  induction L generalizing acc with
  | nil => simp
  | cons x xs ih =>
    rw [List.foldl_cons, List.filter_cons]
    by_cases h : p x = true
    · simp only [if_pos h, ih, List.append_assoc, List.singleton_append]
    · simp only [if_neg h, ih]

theorem foldl_skip_filter {α : Type} (p : α → Bool) (acc L : List α) :
    L.foldl (fun a x => if p x then a else a ++ [x]) acc
      = acc ++ L.filter (fun x => !p x) := by
  induction L generalizing acc with
  | nil => simp
  | cons x xs ih =>
    rw [List.foldl_cons, List.filter_cons]
    by_cases h : p x = true
    · simp [h, ih]
    · simp [h, ih]

theorem appStrictCands_eq (sR : Nat → List SearchItem) :
    appStrictCands sR =
      (sR 0).filter appStrictKeep ++ (sR 1).filter appStrictKeep ++
        (sR 2).filter appStrictKeep := by
  unfold appStrictCands
  rw [show List.range 3 = [0, 1, 2] from by decide]
  simp only [List.foldl_cons, List.foldl_nil]
  rw [foldl_push_filter, foldl_push_filter, foldl_push_filter]
  simp [List.append_assoc]

theorem app_collect_fallback_eq (loc : List Char) (sR fb : Nat → List SearchItem)
    (h : appStrictCands sR = []) :
    app_collect_candidates loc sR fb =
      ((fb 0).take 15).filter (fun it => !appFallbackBlocked it) ++
        ((fb 1).take 15).filter (fun it => !appFallbackBlocked it) ++
        ((fb 2).take 15).filter (fun it => !appFallbackBlocked it) := by
  simp only [app_collect_candidates, h]
  rw [show List.range 3 = [0, 1, 2] from by decide]
  simp only [List.isEmpty_nil, if_true, List.foldl_cons, List.foldl_nil]
  rw [foldl_skip_filter, foldl_skip_filter, foldl_skip_filter]
  simp [List.append_assoc]

/-- Claim C5, amended: in `app.py`'s `get_land_listings`, when the strict
phase accepted nothing, every item among the first 15 of a fallback query
whose URL contains no (reduced-)blocklist substring is accepted — the digit
rule is not applied.  (`services.py`'s `search_listings`, by contrast,
applies the full digit rule in its fallback; see the counterexample.) -/
theorem app_fallback_blocklist_only (loc : List Char) (sR fb : Nat → List SearchItem)
    (hempty : appStrictCands sR = []) (i : Nat) (hi : i < 3) (it : SearchItem)
    (hmem : it ∈ (fb i).take 15) (hclean : appFallbackBlocked it = false) :
    it ∈ app_collect_candidates loc sR fb := by
  rw [app_collect_fallback_eq loc sR fb hempty]
  have hfilter : it ∈ ((fb i).take 15).filter (fun x => !appFallbackBlocked x) :=
    List.mem_filter.mpr ⟨hmem, by rw [hclean]; rfl⟩
  interval_cases i
  · exact List.mem_append.mpr (Or.inl (List.mem_append.mpr (Or.inl hfilter)))
  · exact List.mem_append.mpr (Or.inl (List.mem_append.mpr (Or.inr hfilter)))
  · exact List.mem_append.mpr (Or.inr hfilter)

/-- Claim C5, witness: a digit-free, unblocked fallback item is accepted by
`app.py`'s fallback phase even though the full classifier rejects its URL. -/
theorem app_fallback_blocklist_only_witness :
    appStrictCands (fun _ => []) = [] ∧
    appFallbackBlocked c5Item = false ∧
    is_valid_listing_url_app (pyGetLink c5Item) = false ∧
    c5Item ∈ app_collect_candidates (("Dubbo, New South Wales").data) (fun _ => [])
        (fun i => if i = 0 then [c5Item] else []) :=
  ⟨by decide, by decide, by decide,
    app_fallback_blocklist_only (("Dubbo, New South Wales").data) (fun _ => [])
      (fun i => if i = 0 then [c5Item] else []) (by decide) 0 (by decide) c5Item
      (by decide) (by decide)⟩

/-- Claim C5, counterexample: in `services.py`'s `search_listings` the
fallback phase still applies the full digit rule, so a fallback result whose
URL contains no blocklist substring (of either blocklist, and is not blocked
by the reduced filter either) is NOT accepted: the run returns `[]`. -/
theorem svc_fallback_applies_digit_rule :
    svcBlocklist.all (fun b => !hasSub b (pyLower (pyGetLink c5Item))) = true ∧
    appFallbackBlocked c5Item = false ∧
    search_listings_svc (fun _ => []) (fun i => if i = 0 then [c5Item] else [])
      (("Dubbo, New South Wales").data) = [] := by
  decide

/-- Claim C6, amended: `services.py`'s `search_listings` skips the fallback
when the strict phase accepted nothing and `location_name` contains the
synthetic "Region near" marker: the result is `[]` for EVERY fallback
provider, i.e. no relaxed query is consulted.  (`app.py`'s
`get_land_listings` performs no such check; see the counterexample.) -/
theorem svc_region_near_guard (sR : Nat → List SearchItem) (loc : List Char)
    (hempty : (svcStrictPhase sR).1 = [])
    (hregion : hasSub (("Region near").data) loc = true) :
    ∀ fb : Nat → List SearchItem, search_listings_svc sR fb loc = [] := by
  intro fb
  simp only [search_listings_svc, hempty, hregion, List.isEmpty_nil, if_true]

/-- Claim C6, witness. -/
theorem svc_region_near_guard_witness :
    (svcStrictPhase (fun _ => [])).1 = [] ∧
    hasSub (("Region near").data) (("Region near -32.257, 148.601").data) = true ∧
    search_listings_svc (fun _ => []) (fun _ => [c6Item])
      (("Region near -32.257, 148.601").data) = [] :=
  ⟨by decide, by decide,
    svc_region_near_guard (fun _ => []) (("Region near -32.257, 148.601").data)
      (by decide) (by decide) (fun _ => [c6Item])⟩

/-- Claim C6, counterexample: `app.py`'s `get_land_listings` never inspects
`location_name` for the placeholder marker — with zero strict candidates and
a "Region near" location it still runs the relaxed fallback and returns a
non-empty candidate list. -/
theorem app_no_region_near_guard :
    appStrictCands (fun _ => []) = [] ∧
    hasSub (("Region near").data) (("Region near -32.257, 148.601").data) = true ∧
    app_collect_candidates (("Region near -32.257, 148.601").data) (fun _ => [])
      (fun i => if i = 0 then [c6Item] else []) = [c6Item] := by
  decide

/-- Claim C7, amended: in `app.py`'s strict phase a result whose lowercased
title contains an excluded phrase is never accepted, whatever its URL: every
accepted strict candidate passes `is_valid_listing_title`.
(`services.py`'s `search_listings` never looks at titles; see the
counterexample.) -/
theorem app_strict_title_veto (sR : Nat → List SearchItem) (it : SearchItem)
    (hmem : it ∈ appStrictCands sR) :
    is_valid_listing_title (pyGetTitleE it) = true := by
  rw [appStrictCands_eq] at hmem
  have hkeep : appStrictKeep it = true := by
    rcases List.mem_append.mp hmem with h | h
    · rcases List.mem_append.mp h with h' | h'
      · exact (List.mem_filter.mp h').2
      · exact (List.mem_filter.mp h').2
    · exact (List.mem_filter.mp h).2
  unfold appStrictKeep at hkeep
  rw [Bool.and_eq_true] at hkeep
  exact hkeep.1

/-- Claim C7, witness. -/
theorem app_strict_title_veto_witness :
    c7GoodItem ∈ appStrictCands (fun i => if i = 0 then [c7GoodItem] else []) ∧
    is_valid_listing_title (pyGetTitleE c7GoodItem) = true :=
  ⟨by decide,
    app_strict_title_veto (fun i => if i = 0 then [c7GoodItem] else []) c7GoodItem
      (by decide)⟩

/-- Claim C7, counterexample: `services.py`'s strict phase accepts an item
whose title contains the excluded phrase "market report" (its URL carries a
trailing numeric id), because `search_listings` never applies any title
check — `EXCLUDED_TITLE_KEYWORDS` is unused there. -/
theorem svc_search_ignores_title :
    is_valid_listing_title (pyGetTitleE c7BadItem) = false ∧
    search_listings_svc (fun i => if i = 0 then [c7BadItem] else []) (fun _ => [])
      (("Dubbo, New South Wales").data) = [c7BadItem] := by
  decide

theorem svcStep_inv (st : List SearchItem × List (List Char)) (item : SearchItem)
    (h : svcInv st) : svcInv (svcStep st item) := by
  obtain ⟨h1, h2⟩ := h
  by_cases hseen : pyGetLink item ∈ st.2
  · simpa [svcStep, hseen] using And.intro h1 h2
  · by_cases hval : is_valid_listing_url_svc (pyGetLink item) = true
    · simp only [svcStep, if_neg hseen, hval, if_true]
      constructor
      · rw [List.map_append, List.nodup_append]
        refine ⟨h1, List.nodup_singleton _, ?_⟩
        intro x hx hx'
        simp only [List.map_cons, List.map_nil, List.mem_singleton] at hx'
        subst hx'
        obtain ⟨it', hit', heq⟩ := List.mem_map.mp hx
        exact hseen (heq ▸ h2 it' hit')
      · intro it' hit'
        rcases List.mem_append.mp hit' with hmem | hmem
        · exact List.mem_cons_of_mem _ (h2 it' hmem)
        · simp only [List.mem_singleton] at hmem
          subst hmem
          exact List.mem_cons_self _ _
    · have hval' : is_valid_listing_url_svc (pyGetLink item) = false :=
        Bool.eq_false_iff.mpr hval
      simpa [svcStep, hseen, hval'] using And.intro h1 h2

theorem foldl_svcStep_inv (L : List SearchItem)
    (st : List SearchItem × List (List Char)) (h : svcInv st) :
    svcInv (L.foldl svcStep st) := by
  induction L generalizing st with
  | nil => exact h
  | cons a as ih => exact ih _ (svcStep_inv _ _ h)

theorem svcFoldQueries_inv (resp : Nat → List SearchItem)
    (st : List SearchItem × List (List Char)) (h : svcInv st) :
    svcInv (svcFoldQueries resp st) := by
  unfold svcFoldQueries
  generalize List.range 4 = qs
  induction qs generalizing st with
  | nil => exact h
  | cons q qs ih => exact ih _ (foldl_svcStep_inv _ _ h)

/-- Claim C3, amended: within one `ListingService.search_listings` run
(across all query templates and both the strict and the fallback phase) no
two returned candidates share a URL: the result is pairwise distinct on
`link`, for every provider behaviour and location.  (`app.py`'s
`get_land_listings` performs no deduplication at all; see the
counterexample.) -/
theorem svc_search_dedup (sR fb : Nat → List SearchItem) (loc : List Char) :
    (search_listings_svc sR fb loc).Pairwise
      (fun a b => pyGetLink a ≠ pyGetLink b) := by
  have base : svcInv ([], []) := by
    constructor
    · exact List.nodup_nil
    · intro it hit
      cases hit
  have hstrict : svcInv (svcStrictPhase sR) := svcFoldQueries_inv sR ([], []) base
  have key : ∀ st : List SearchItem × List (List Char), svcInv st →
      st.1.Pairwise (fun a b => pyGetLink a ≠ pyGetLink b) := by
    intro st hst
    exact List.pairwise_map.mp hst.1
  simp only [search_listings_svc]
  split
  · split
    · exact List.Pairwise.nil
    · exact key _ (svcFoldQueries_inv fb _ hstrict)
  · exact key _ hstrict

/-- Claim C3, counterexample: `app.py`'s `get_land_listings` does not
deduplicate — when one strict query returns the same accepted item twice,
the candidate list contains the same URL twice, so the claimed pairwise
distinctness fails on this run. -/
theorem app_pipeline_duplicate_urls :
    app_collect_candidates (("Dubbo, New South Wales").data) c3Strict c3Fallback
        = [c3Item, c3Item] ∧
    ¬ ((app_collect_candidates (("Dubbo, New South Wales").data) c3Strict
          c3Fallback).Pairwise (fun a b => pyGetLink a ≠ pyGetLink b)) := by
  have e : app_collect_candidates (("Dubbo, New South Wales").data) c3Strict
      c3Fallback = [c3Item, c3Item] := by decide
  refine ⟨e, ?_⟩
  rw [e]
  intro h
  exact (List.pairwise_cons.mp h).1 c3Item (List.mem_cons_self _ _) rfl

theorem zip_map_getD (raw : List SearchItem) (texts : List (Option (List Char)))
    (i : Nat) (hi : i < raw.length) (hi' : i < texts.length) :
    ((raw.zip texts).map (fun p => svcMakeListing p.1 p.2)).getD i dListingItem
      = svcMakeListing (raw.getD i dSearchItem) (texts.getD i none) := by
  induction raw generalizing texts i with
  | nil => simp at hi
  | cons a as ih =>
    cases texts with
    | nil => simp at hi'
    | cons t ts =>
      cases i with
      | zero => rfl
      | succ n =>
        simp only [List.zip_cons_cons, List.map_cons, List.getD_cons_succ]
        exact ih ts n (by simp only [List.length_cons] at hi; omega)
          (by simp only [List.length_cons] at hi'; omega)

theorem svc_merge_length (raw : List SearchItem)
    (texts : List (Option (List Char))) (hlen : texts.length = raw.length) :
    (get_listings_with_content_svc raw texts).length = raw.length := by
  unfold get_listings_with_content_svc
  by_cases h : raw.isEmpty = true
  · rw [if_pos h, List.isEmpty_iff.mp h]
    rfl
  · rw [if_neg h, List.length_map, List.length_zip, hlen, Nat.min_self]

theorem svc_merge_getD (raw : List SearchItem)
    (texts : List (Option (List Char))) (hlen : texts.length = raw.length)
    (i : Nat) (hi : i < raw.length) :
    (get_listings_with_content_svc raw texts).getD i dListingItem
      = svcMakeListing (raw.getD i dSearchItem) (texts.getD i none) := by
  unfold get_listings_with_content_svc
  by_cases h : raw.isEmpty = true
  · rw [List.isEmpty_iff.mp h] at hi
    simp at hi
  · rw [if_neg h]
    exact zip_map_getD raw texts i hi (by omega)

/-- Claim C10: `get_listings_with_content` preserves input order and
pairing — the output has the same length as the candidate list and its
`i`-th listing is built from the `i`-th raw item and the `i`-th gather
result (title, url, image and snippet-or-scraped content all from that
item). -/
theorem merge_preserves_order_and_pairing (raw : List SearchItem)
    (texts : List (Option (List Char))) (hlen : texts.length = raw.length) :
    (get_listings_with_content_svc raw texts).length = raw.length ∧
    ∀ i, i < raw.length →
      (get_listings_with_content_svc raw texts).getD i dListingItem
        = svcMakeListing (raw.getD i dSearchItem) (texts.getD i none) :=
  ⟨svc_merge_length raw texts hlen, fun i hi => svc_merge_getD raw texts hlen i hi⟩

/-- Claim C10, witness: with two raw items the second output listing is
exactly the listing built from the second item and the second fetch
result. -/
theorem merge_preserves_order_and_pairing_witness :
    c10Texts.length = c10Raw.length ∧
    (get_listings_with_content_svc c10Raw c10Texts).length = c10Raw.length ∧
    (get_listings_with_content_svc c10Raw c10Texts).getD 1 dListingItem
      = svcMakeListing (c10Raw.getD 1 dSearchItem) (c10Texts.getD 1 none) :=
  ⟨by decide, (merge_preserves_order_and_pairing c10Raw c10Texts (by decide)).1,
    (merge_preserves_order_and_pairing c10Raw c10Texts (by decide)).2 1 (by decide)⟩

/-- Claim C4: the scrape coordination returns exactly one Listing per input
Candidate, and every candidate whose fetch failed or returned empty text
gets its original snippet as content.  Both implementations are covered:
`services.py`'s order-preserving merge (exact snippet), and `app.py`'s
completion-ordered collection (`perm` is an arbitrary completion order;
`scrape_with_metadata` caps the content at 3000 characters, so the snippet
is returned through `take 3000`). -/
theorem scrape_one_listing_per_candidate (raw : List SearchItem)
    (texts : List (Option (List Char))) (hlen : texts.length = raw.length)
    (fetch : List Char → Option (List Char)) (perm : List SearchItem)
    (hperm : perm.Perm raw) :
    (get_listings_with_content_svc raw texts).length = raw.length ∧
    (∀ i, i < raw.length →
      (texts.getD i none = none ∨ texts.getD i none = some []) →
      ((get_listings_with_content_svc raw texts).getD i dListingItem).scraped_content
        = pyGetSnippetE (raw.getD i dSearchItem)) ∧
    (app_scrape_results fetch perm).length = raw.length ∧
    (∀ it ∈ perm,
      (fetch (it.link.getD (("#").data)) = none ∨
        fetch (it.link.getD (("#").data)) = some []) →
      (scrape_with_metadata_app fetch it).scraped_content
        = (it.snippet.getD (("No description available.").data)).take 3000) := by
  refine ⟨svc_merge_length raw texts hlen, ?_, ?_, ?_⟩
  · intro i hi hfail
    rw [svc_merge_getD raw texts hlen i hi]
    unfold svcMakeListing
    dsimp only
    rcases hfail with h | h <;> rw [h] <;> simp [pyTextOrSnippet]
  · unfold app_scrape_results
    rw [List.length_map, hperm.length_eq]
  · intro it _ hfail
    unfold scrape_with_metadata_app
    dsimp only
    rcases hfail with h | h <;> rw [h] <;> simp [pyTextOrSnippet]

/-- Claim C4, witness: two candidates, the second fetch failed; the run
yields two listings and the failed one carries its snippet. -/
theorem scrape_one_listing_per_candidate_witness :
    c4Texts.length = ([c4ItA, c4ItB] : List SearchItem).length ∧
    List.Perm ([c4ItB, c4ItA] : List SearchItem) [c4ItA, c4ItB] ∧
    (get_listings_with_content_svc [c4ItA, c4ItB] c4Texts).length = 2 ∧
    ((get_listings_with_content_svc [c4ItA, c4ItB] c4Texts).getD 1
        dListingItem).scraped_content
      = pyGetSnippetE (([c4ItA, c4ItB] : List SearchItem).getD 1 dSearchItem) ∧
    (app_scrape_results c4Fetch [c4ItB, c4ItA]).length = 2 ∧
    (scrape_with_metadata_app c4Fetch c4ItB).scraped_content
      = (c4ItB.snippet.getD (("No description available.").data)).take 3000 := by
  have h := scrape_one_listing_per_candidate [c4ItA, c4ItB] c4Texts (by decide)
    c4Fetch [c4ItB, c4ItA] (List.Perm.swap c4ItA c4ItB [])
  exact ⟨by decide, List.Perm.swap c4ItA c4ItB [], h.1,
    h.2.1 1 (by decide) (by decide), h.2.2.1,
    h.2.2.2 c4ItB (by decide) (by decide)⟩
